import Mathlib

/-!
Verification development for the AFO feed-digest orchestration pipeline.

The JavaScript sources are shallowly embedded as pure Lean functions:
  * `src/retry.js`            → `AFO.calculateBackoffDelay`, `AFO.retryWithBackoff`,
                                `AFO.isRetryableError`, `AFO.retryOnError`
  * `src/digest.js`           → `AFO.readDigestCache`, `AFO.writeDigestCache`,
                                `AFO.generateMultiLayerDigest` and its helpers
  * `src/content-fetcher.js`  → `AFO.fetchArticleContent`, `AFO.truncateText`
  * `src/summarize-feeds.js`  → `AFO.writeFeedCache`, `AFO.fetchFeedEntries`,
                                `AFO.filterEntriesByRetention`,
                                `AFO.buildDailyDigestEntries`, `AFO.mainSchedule`
  * `src/reporting.js`        → `AFO.createItemCounters`, `AFO.recordItemResult`

Modelling conventions:
  * JavaScript numbers that hold millisecond timestamps are modelled as `Int`;
    delays and jitter arithmetic (which involves `Math.random()` and division)
    are modelled over `ℚ` with `Int.floor` for `Math.floor`.
  * `Math.random()` draws are supplied externally as a function `Nat → ℚ`
    (one draw per retry attempt), constrained to `[0, 1)` in the theorems.
  * Promise rejection / `throw` is modelled with `Except`; code that catches
    every exception locally is modelled as a total function.
  * Asynchronous collaborators (network fetch, the OpenAI chat call, JSON
    recovery from a free-text model reply, regex sentence splitting) are
    supplied as environment parameters: their internals are outside the
    orchestration core, and no claim depends on them.
-/

namespace AFO

/-! ### Errors (shape of the JS error objects inspected by `isRetryableError`) -/

/-- A JavaScript error value, restricted to the fields that
`isRetryableError` (src/retry.js) inspects.  `etype` models the JS `type`
field (OpenAI error classification). -/
structure Err where
  code : Option String := none
  status : Option Nat := none
  statusCode : Option Nat := none
  etype : Option String := none
  message : String := ""
deriving DecidableEq, Repr

/-- JS numeric truthiness: `0` is falsy, every other number is truthy. -/
def numTruthy : Option Nat → Option Nat
  | some n => if n = 0 then none else some n
  | none => none

/-- `error.status || error.statusCode` from src/retry.js line 150-151. -/
def httpStatusOf (e : Err) : Option Nat :=
  match numTruthy e.status with
  | some s => some s
  | none => numTruthy e.statusCode

/-- Substring test over character lists (models JS `String.includes`). -/
def listContainsSub (needle hay : List Char) : Bool :=
  hay.tails.any fun t => needle.isPrefixOf t

/-- Models `message.includes(needle)`. -/
def strContainsSub (hay needle : String) : Bool :=
  listContainsSub needle.toList hay.toList

/-- `isRetryableError` from src/retry.js lines 142-172, branch for branch:
network error codes; then HTTP status codes (429, 408, 500-504); then
OpenAI error classifications; then the "socket hang up" message check;
then explicit certificate-error codes (not retried); default `false`. -/
def isRetryableError (e : Err) : Bool :=
  if e.code = some "ECONNRESET" ∨ e.code = some "ETIMEDOUT" ∨
     e.code = some "ENOTFOUND" ∨ e.code = some "ECONNREFUSED" ∨
     e.code = some "EHOSTUNREACH" ∨ e.code = some "EAI_AGAIN" then
    true
  else
    match httpStatusOf e with
    | some status => decide (status = 429 ∨ status = 408 ∨ (500 ≤ status ∧ status ≤ 504))
    | none =>
      if e.etype = some "rate_limit_error" ∨ e.etype = some "server_error" then
        true
      else if strContainsSub e.message "socket hang up" then
        true
      else if e.code = some "UNABLE_TO_VERIFY_LEAF_SIGNATURE" ∨
              e.code = some "CERT_HAS_EXPIRED" then
        false
      else
        false

/-! ### Backoff executor (src/retry.js) -/

/-- `calculateBackoffDelay` from src/retry.js lines 68-74.  `rand` is the
`Math.random()` draw in `[0,1)`; the result is `Math.floor` of the jittered
capped delay. -/
def calculateBackoffDelay (attempt : Nat) (baseDelay maxDelay : ℚ) (rand : ℚ) : Int :=
  let exponentialDelay := baseDelay * 2 ^ attempt
  let cappedDelay := min exponentialDelay maxDelay
  let jitter := cappedDelay * (1 / 4) * (rand * 2 - 1)
  ⌊cappedDelay + jitter⌋

/-- The retry loop of `retryWithBackoff` (src/retry.js lines 107-134),
starting at attempt number `attempt` with `remaining = maxRetries - attempt`
further attempts allowed.  `fn k` is the settled outcome of the `k`-th
invocation of the wrapped operation; `rand k` the random draw used for the
delay after attempt `k`.  Returns the final outcome, the total number of
invocations of `fn`, and the list of delays slept (in chronological order). -/
def retryFrom {E A : Type} (fn : Nat → Except E A) (shouldRetry : E → Nat → Bool)
    (baseDelay maxDelay : ℚ) (rand : Nat → ℚ) (attempt : Nat) :
    Nat → Except E A × Nat × List Int
  | 0 =>
    -- `attempt >= maxRetries`: the last error is propagated
    match fn attempt with
    | .ok a => (.ok a, 1, [])
    | .error e => (.error e, 1, [])
  | remaining + 1 =>
    match fn attempt with
    | .ok a => (.ok a, 1, [])
    | .error e =>
      if shouldRetry e attempt then
        let d := calculateBackoffDelay attempt baseDelay maxDelay (rand attempt)
        let rest := retryFrom fn shouldRetry baseDelay maxDelay rand (attempt + 1) remaining
        (rest.1, rest.2.1 + 1, d :: rest.2.2)
      else
        (.error e, 1, [])

/-- `retryWithBackoff` from src/retry.js lines 96-135: attempts
`0 .. maxRetries`; a non-retryable error or exhausted attempts propagate the
last error. -/
def retryWithBackoff {E A : Type} (maxRetries : Nat) (baseDelay maxDelay : ℚ)
    (shouldRetry : E → Nat → Bool) (fn : Nat → Except E A) (rand : Nat → ℚ) :
    Except E A × Nat × List Int :=
  retryFrom fn shouldRetry baseDelay maxDelay rand 0 maxRetries

/-- `retryOnError` from src/retry.js lines 181-186: `retryWithBackoff` with
`shouldRetry` defaulted to `isRetryableError`. -/
def retryOnError {A : Type} (maxRetries : Nat) (baseDelay maxDelay : ℚ)
    (fn : Nat → Except Err A) (rand : Nat → ℚ) :
    Except Err A × Nat × List Int :=
  retryWithBackoff maxRetries baseDelay maxDelay (fun e _ => isRetryableError e) fn rand

/-! ### Lemmas about the backoff executor -/

/-- Exact bounds for one jittered delay: with nonnegative `baseDelay`,
`maxDelay` and a draw in `[0,1)`, the floored delay sits in
`(0.75·cap − 1, 1.25·cap]` for `cap = min (baseDelay·2^attempt) maxDelay`,
and is never negative. -/
theorem calculateBackoffDelay_bounds (attempt : Nat) (b m r : ℚ)
    (hb : 0 ≤ b) (hm : 0 ≤ m) (hr0 : 0 ≤ r) (hr1 : r < 1) :
    (3 / 4) * min (b * 2 ^ attempt) m - 1 < (calculateBackoffDelay attempt b m r : ℚ) ∧
    (calculateBackoffDelay attempt b m r : ℚ) ≤ (5 / 4) * min (b * 2 ^ attempt) m ∧
    0 ≤ calculateBackoffDelay attempt b m r := by
  have hcap : 0 ≤ min (b * 2 ^ attempt) m := le_min (by positivity) hm
  set cap := min (b * 2 ^ attempt) m with hcapdef
  have hlo : (3 / 4) * cap ≤ cap + cap * (1 / 4) * (r * 2 - 1) := by
    have h1 : (-1 : ℚ) ≤ r * 2 - 1 := by linarith
    nlinarith
  have hhi : cap + cap * (1 / 4) * (r * 2 - 1) ≤ (5 / 4) * cap := by
    have h1 : r * 2 - 1 ≤ 1 := by linarith
    nlinarith
  have hfl : (calculateBackoffDelay attempt b m r : ℚ) = (⌊cap + cap * (1 / 4) * (r * 2 - 1)⌋ : ℚ) := by
    simp [calculateBackoffDelay, hcapdef]
  refine ⟨?_, ?_, ?_⟩
  · have := Int.sub_one_lt_floor (cap + cap * (1 / 4) * (r * 2 - 1))
    rw [hfl]
    linarith
  · have := Int.floor_le (cap + cap * (1 / 4) * (r * 2 - 1))
    rw [hfl]
    linarith
  · have : (0 : Int) ≤ ⌊cap + cap * (1 / 4) * (r * 2 - 1)⌋ :=
      Int.le_floor.mpr (by push_cast; linarith)
    simpa [calculateBackoffDelay, hcapdef] using this

/-- Every recorded delay in the retry trace is the jittered backoff delay for
the attempt it followed: the `i`-th delay (0-indexed) of a loop starting at
attempt `attempt` is `calculateBackoffDelay (attempt + i)`. -/
theorem retryFrom_delay_eq {E A : Type} (fn : Nat → Except E A)
    (shouldRetry : E → Nat → Bool) (b m : ℚ) (rand : Nat → ℚ) :
    ∀ (remaining attempt i : Nat) (d : Int),
      (retryFrom fn shouldRetry b m rand attempt remaining).2.2[i]? = some d →
      d = calculateBackoffDelay (attempt + i) b m (rand (attempt + i)) := by
  intro remaining
  induction remaining with
  | zero =>
    intro attempt i d hd
    cases h : fn attempt <;> simp [retryFrom, h] at hd
  | succ rem ih =>
    intro attempt i d hd
    cases h : fn attempt with
    | ok a => simp [retryFrom, h] at hd
    | error e =>
      by_cases hs : shouldRetry e attempt
      · simp [retryFrom, h, hs] at hd
        cases i with
        | zero =>
          simp at hd
          simpa using hd.symm
        | succ j =>
          simp at hd
          have := ih (attempt + 1) j d hd
          rw [this]
          ring_nf
      · simp [retryFrom, h, hs] at hd

/-- C2 [corrected]: the delay slept before retry `n` (1-indexed) is bounded by
`0.75 · min(b · 2^(n−1), m) − 1 <  delay ≤ 1.25 · min(b · 2^(n−1), m)` and is
never negative, for every value of the internal uniform random draws in
`[0, 1)`.  (The exponent is `n − 1`, not `n`: the code passes the 0-indexed
attempt counter to `calculateBackoffDelay`; and `Math.floor` can push the
delay slightly below `0.75 · cap`, hence the `− 1` in the open lower bound.) -/
theorem retryWithBackoff_delay_bounds {E A : Type} (maxRetries : Nat) (b m : ℚ)
    (shouldRetry : E → Nat → Bool) (fn : Nat → Except E A) (rand : Nat → ℚ)
    (hb : 0 ≤ b) (hm : 0 ≤ m) (hr : ∀ k, 0 ≤ rand k ∧ rand k < 1)
    (n : Nat) (hn : 1 ≤ n) (d : Int)
    (hd : (retryWithBackoff maxRetries b m shouldRetry fn rand).2.2[n - 1]? = some d) :
    (3 / 4) * min (b * 2 ^ (n - 1)) m - 1 < (d : ℚ) ∧
    (d : ℚ) ≤ (5 / 4) * min (b * 2 ^ (n - 1)) m ∧
    0 ≤ d := by
  have heq := retryFrom_delay_eq fn shouldRetry b m rand maxRetries 0 (n - 1) d hd
  rw [Nat.zero_add] at heq
  rw [heq]
  exact calculateBackoffDelay_bounds (n - 1) b m (rand (n - 1)) hb hm (hr (n - 1)).1 (hr (n - 1)).2

/-- Witness for C2's amended theorem at retry `n = 1` with `b = 100`,
`m = 10000`, all attempts failing and every random draw `1/2`: the first
delay is `100` and satisfies the bounds. -/
theorem retryWithBackoff_delay_bounds_witness :
    (3 / 4 : ℚ) * min ((100 : ℚ) * 2 ^ (1 - 1)) 10000 - 1 < ((100 : Int) : ℚ) ∧
    ((100 : Int) : ℚ) ≤ (5 / 4) * min ((100 : ℚ) * 2 ^ (1 - 1)) 10000 ∧
    0 ≤ (100 : Int) :=
  retryWithBackoff_delay_bounds (E := Unit) (A := Nat) 3 100 10000
    (fun _ _ => true) (fun _ => .error ()) (fun _ => 1 / 2)
    (by norm_num) (by norm_num) (fun k => ⟨by norm_num, by norm_num⟩) 1 (by norm_num) 100
    (by simp [retryWithBackoff, retryFrom, calculateBackoffDelay]; norm_num)

/-- C2 [counterexample to the claim as stated]: with `baseDelay = 100`,
`maxDelay = 10000`, draw `1/2`, the delay slept before retry 1 is `100`,
which lies outside `[0.75 · min(100 · 2^1, 10000), 1.25 · min(100 · 2^1, 10000)]
= [150, 250]`. -/
theorem retryWithBackoff_delay_claim_counterexample :
    (retryWithBackoff (E := Unit) (A := Nat) 3 100 10000
        (fun _ _ => true) (fun _ => .error ()) (fun _ => 1 / 2)).2.2[0]? = some 100 ∧
    ¬ ((3 / 4 : ℚ) * min ((100 : ℚ) * 2 ^ (1 : Nat)) 10000 ≤ ((100 : Int) : ℚ)) := by
  constructor
  · simp [retryWithBackoff, retryFrom, calculateBackoffDelay]
    norm_num
  · norm_num

/-- C6 [confirmed]: if the operation fails on its first invocation with an
error the `shouldRetry`/`isRetryableError` predicate rejects, then
`retryWithBackoff` (and `retryOnError`) invoke the operation exactly once,
sleep no delay, and propagate that first error. -/
theorem retry_nonretryable_single_attempt {E A : Type} (maxRetries : Nat) (b m : ℚ)
    (shouldRetry : E → Nat → Bool) (fn : Nat → Except E A) (rand : Nat → ℚ) (e : E)
    (h0 : fn 0 = .error e) (hs : shouldRetry e 0 = false)
    (gn : Nat → Except Err A) (err : Err) (hg : gn 0 = .error err)
    (hr : isRetryableError err = false) :
    retryWithBackoff maxRetries b m shouldRetry fn rand = (.error e, 1, []) ∧
    retryOnError maxRetries b m gn rand = (.error err, 1, []) := by
  constructor
  · cases maxRetries with
    | zero => simp [retryWithBackoff, retryFrom, h0]
    | succ k => simp [retryWithBackoff, retryFrom, h0, hs]
  · cases maxRetries with
    | zero => simp [retryOnError, retryWithBackoff, retryFrom, hg]
    | succ k => simp [retryOnError, retryWithBackoff, retryFrom, hg, hr]

/-- Witness for C6 at a concrete non-retryable (certificate) error. -/
theorem retry_nonretryable_single_attempt_witness :
    retryWithBackoff (A := Nat) 3 1000 30000 (fun _ _ => false)
        (fun _ => .error ()) (fun _ => 1 / 2) = (.error (), 1, []) ∧
    retryOnError (A := Nat) 3 1000 30000
        (fun _ => .error { code := some "CERT_HAS_EXPIRED" }) (fun _ => 1 / 2)
      = (.error { code := some "CERT_HAS_EXPIRED" }, 1, []) :=
  retry_nonretryable_single_attempt 3 1000 30000 (fun _ _ => false)
    (fun _ => .error ()) (fun _ => 1 / 2) () rfl rfl
    (fun _ => .error { code := some "CERT_HAS_EXPIRED" })
    { code := some "CERT_HAS_EXPIRED" } rfl (by decide)

/-- C7 [corrected]: the default retryable classification.  Network error
codes (connection reset, timeout, DNS failure, connection refused, host
unreachable, DNS-again) are retryable; with an HTTP status present,
retryable exactly for 429, 408 and 500-504 (so NOT for every 5xx: 505-599
are not retried); the service classifications `rate_limit_error` /
`server_error` are retryable when no HTTP status field is present; a
TLS/certificate validation failure (certificate error code, no status, no
service classification, no socket-hang-up message) is never retryable. -/
theorem isRetryableError_policy :
    (∀ e : Err,
      (e.code = some "ECONNRESET" ∨ e.code = some "ETIMEDOUT" ∨
       e.code = some "ENOTFOUND" ∨ e.code = some "ECONNREFUSED" ∨
       e.code = some "EHOSTUNREACH" ∨ e.code = some "EAI_AGAIN") →
      isRetryableError e = true) ∧
    (∀ (e : Err) (s : Nat),
      (e.code = none ∨ e.code = some "UNABLE_TO_VERIFY_LEAF_SIGNATURE" ∨
       e.code = some "CERT_HAS_EXPIRED") →
      httpStatusOf e = some s →
      (isRetryableError e = true ↔ (s = 429 ∨ s = 408 ∨ (500 ≤ s ∧ s ≤ 504)))) ∧
    (∀ e : Err,
      e.code = none → httpStatusOf e = none →
      (e.etype = some "rate_limit_error" ∨ e.etype = some "server_error") →
      isRetryableError e = true) ∧
    (∀ e : Err,
      (e.code = some "UNABLE_TO_VERIFY_LEAF_SIGNATURE" ∨ e.code = some "CERT_HAS_EXPIRED") →
      httpStatusOf e = none → e.etype = none →
      strContainsSub e.message "socket hang up" = false →
      isRetryableError e = false) := by
  refine ⟨?_, ?_, ?_, ?_⟩
  · intro e hc
    simp only [isRetryableError]
    rw [if_pos hc]
  · intro e s hc hst
    have hnc : ¬ (e.code = some "ECONNRESET" ∨ e.code = some "ETIMEDOUT" ∨
        e.code = some "ENOTFOUND" ∨ e.code = some "ECONNREFUSED" ∨
        e.code = some "EHOSTUNREACH" ∨ e.code = some "EAI_AGAIN") := by
      rcases hc with h | h | h <;> simp [h]
    simp only [isRetryableError]
    rw [if_neg hnc, hst]
    simp [decide_eq_true_iff]
  · intro e hc hst ht
    have hnc : ¬ (e.code = some "ECONNRESET" ∨ e.code = some "ETIMEDOUT" ∨
        e.code = some "ENOTFOUND" ∨ e.code = some "ECONNREFUSED" ∨
        e.code = some "EHOSTUNREACH" ∨ e.code = some "EAI_AGAIN") := by
      simp [hc]
    simp only [isRetryableError]
    rw [if_neg hnc, hst]
    rw [if_pos ht]
  · intro e hc hst ht hm
    have hnc : ¬ (e.code = some "ECONNRESET" ∨ e.code = some "ETIMEDOUT" ∨
        e.code = some "ENOTFOUND" ∨ e.code = some "ECONNREFUSED" ∨
        e.code = some "EHOSTUNREACH" ∨ e.code = some "EAI_AGAIN") := by
      rcases hc with h | h <;> simp [h]
    have hnt : ¬ (e.etype = some "rate_limit_error" ∨ e.etype = some "server_error") := by
      simp [ht]
    simp only [isRetryableError]
    rw [if_neg hnc, hst]
    rw [if_neg hnt, hm]
    simp [hc]

/-- Witness for C7's amended theorem at concrete errors of each class. -/
theorem isRetryableError_policy_witness :
    isRetryableError { code := some "ECONNRESET" } = true ∧
    (isRetryableError { status := some 503 } = true ↔
      ((503 : Nat) = 429 ∨ (503 : Nat) = 408 ∨ (500 ≤ (503 : Nat) ∧ (503 : Nat) ≤ 504))) ∧
    isRetryableError { etype := some "server_error" } = true ∧
    isRetryableError { code := some "CERT_HAS_EXPIRED" } = false :=
  ⟨isRetryableError_policy.1 _ (Or.inl rfl),
   isRetryableError_policy.2.1 { status := some 503 } 503 (Or.inl rfl) rfl,
   isRetryableError_policy.2.2.1 { etype := some "server_error" } rfl rfl (Or.inr rfl),
   isRetryableError_policy.2.2.2 { code := some "CERT_HAS_EXPIRED" } (Or.inr rfl) rfl rfl
     (by decide)⟩

/-- C7 [counterexample to the claim as stated]: HTTP 505 is a 5xx status,
yet `isRetryableError` classifies it as not retryable (only 500-504 are
retried). -/
theorem isRetryableError_5xx_counterexample :
    isRetryableError { status := some 505 } = false ∧
    (500 ≤ (505 : Nat) ∧ (505 : Nat) ≤ 599) := by
  constructor
  · decide
  · constructor <;> norm_num

/-! ### Content fetcher (src/content-fetcher.js) -/

/-- `truncateText` from src/content-fetcher.js lines 199-204: `!text` and
short text are returned as-is (empty for `!text`), longer text is cut at
`maxLength` characters with an ellipsis appended.  (JS `slice` counts UTF-16
units; `String.take` counts characters — identical for the properties used
here.) -/
def truncateText (text : String) (maxLength : Nat) : String :=
  if text = "" ∨ text.length ≤ maxLength then text
  else text.take maxLength ++ "…"

/-- Word counting as in `fallbackContent.split(/\s+/).length`. -/
def wordCountOf (s : String) : Nat :=
  (s.split fun c => c.isWhitespace).length

/-- Result of a successful fetch-and-extract (the `extractContent` result,
src/content-fetcher.js lines 129-135); produced by the external
network/HTML-extraction collaborator. -/
structure ExtractedContent where
  title : String := ""
  description : String := ""
  content : String := ""
  paragraphs : List String := []
  wordCount : Nat := 0
deriving DecidableEq, Repr

/-- The object returned by `fetchArticleContent`: extracted content plus the
optional `fetchError`. -/
structure ArticleContent where
  title : String
  description : String
  content : String
  paragraphs : List String
  wordCount : Nat
  fetchError : Option String
deriving DecidableEq, Repr

/-- `fetchArticleContent` from src/content-fetcher.js lines 146-191.
`net` is the settled outcome of the retried fetch-and-extract (`.error msg`
when the final attempt rejected: the surrounding catch then substitutes the
fallback content and records `fetchError`). -/
def fetchArticleContent (enableFullArticleFetch : Bool)
    (net : Except String ExtractedContent) (fallbackContent : String) :
    ArticleContent :=
  if !enableFullArticleFetch then
    { title := "", description := "", content := fallbackContent,
      paragraphs := if fallbackContent = "" then [] else [fallbackContent],
      wordCount := wordCountOf fallbackContent,
      fetchError := some "Full article fetch is disabled" }
  else
    match net with
    | .ok ex =>
      { title := ex.title, description := ex.description, content := ex.content,
        paragraphs := ex.paragraphs, wordCount := ex.wordCount, fetchError := none }
    | .error msg =>
      { title := "", description := "", content := fallbackContent,
        paragraphs := if fallbackContent = "" then [] else [fallbackContent],
        wordCount := wordCountOf fallbackContent,
        fetchError := some msg }

/-! ### Digest pipeline (src/digest.js) -/

/-- One paragraph-level digest `{index, title, summary}`. -/
structure ParagraphDigest where
  index : Nat
  title : String
  summary : String
deriving DecidableEq, Repr

/-- The `articleContent` metadata block of a produced digest. -/
structure ArticleContentMeta where
  fetchedSuccessfully : Bool
  wordCount : Nat
  error : Option String
deriving DecidableEq, Repr

/-- The `digests` layer block of a produced digest. -/
structure DigestLayers where
  paragraphs : List ParagraphDigest
  sections : String
  overall : String
  oneLine : String
deriving DecidableEq, Repr

/-- The digest object assembled by `generateMultiLayerDigest`
(src/digest.js lines 497-514). -/
structure Digest where
  itemHash : String
  title : String
  link : String
  sourceTitle : String
  publishedAt : Option Int
  articleContent : ArticleContentMeta
  digests : DigestLayers
deriving DecidableEq, Repr

/-- A feed item as consumed by the digest pipeline (normalized entry). -/
structure Item where
  title : String := ""
  link : String := ""
  description : String := ""
  sourceTitle : String := ""
  publishedAt : Option Int := none
deriving DecidableEq, Repr

/-- JS `a || b` on strings: empty is falsy. -/
def jsOrS (a b : String) : String :=
  if a = "" then b else a

/-- `generateItemHash` (src/digest.js lines 25-28) computes the SHA-256 of
`title|link|publishedAt-ISO`.  The hash itself is an external primitive; the
model uses the pre-image key directly (deterministic, and injective
wherever SHA-256 is collision-free), with `toString` standing for
`toISOString()`. -/
def generateItemHash (item : Item) : String :=
  item.title ++ "|" ++ item.link ++ "|" ++
    (match item.publishedAt with
     | some t => toString t
     | none => "")

/-- On-disk state of one digest-cache slot.  `corrupt` models a file whose
read or `JSON.parse` fails; `file` carries the parsed `cachedAt` field
(`none` when absent/falsy, `some none` when it parses to an invalid date)
and the stored digest. -/
inductive CacheSlot where
  | absent
  | corrupt
  | file (cachedAt : Option (Option Int)) (digest : Digest)
deriving DecidableEq, Repr

/-- The digest-relevant part of `config` (src/config.js) plus the custom
prompt loaded at module initialization of src/digest.js. -/
structure DigestConfig where
  digestCacheEnabled : Bool
  digestCacheTtlMs : Int
  enableFullArticleFetch : Bool
  maxRetries : Nat
  customPrompt : Option String
deriving Repr

/-- `readDigestCache` from src/digest.js lines 44-66: disabled cache, a
missing/corrupt file and a missing `cachedAt` all read as absent; an entry
older than the TTL reads as absent; an unparsable `cachedAt` date makes the
age comparison `NaN > ttl` false, so the entry reads as present. -/
def readDigestCache (cfg : DigestConfig) (store : String → CacheSlot)
    (now : Int) (itemHash : String) : Option Digest :=
  if !cfg.digestCacheEnabled then none
  else
    match store itemHash with
    | .absent => none
    | .corrupt => none
    | .file cachedAt digest =>
      match cachedAt with
      | none => none
      | some none => some digest
      | some (some t) => if now - t > cfg.digestCacheTtlMs then none else some digest

/-- `writeDigestCache` from src/digest.js lines 73-91: a no-op when the
cache is disabled; on success stores the digest stamped `cachedAt := now`;
a failing filesystem write (`writeOk = false`) is caught and logged inside
`writeDigestCache`, leaving the store unchanged — it never propagates. -/
def writeDigestCache (cfg : DigestConfig) (store : String → CacheSlot)
    (now : Int) (itemHash : String) (digest : Digest) (writeOk : Bool) :
    String → CacheSlot :=
  if !cfg.digestCacheEnabled then store
  else if writeOk then
    fun h => if h = itemHash then .file (some (some now)) digest else store h
  else store

/-- The structured summary recovered by `extractJson` from a custom-prompt
reply (fields default to falsy/empty as in the JS access paths). -/
structure CustomSummary where
  paragraphSummaries : List String := []
  overallSummary : String := ""
  oneLineSummary : String := ""
deriving DecidableEq, Repr

/-- A raw paragraph object from the model's JSON reply, before validation
(absent JS fields are the empty string, which is falsy). -/
structure RawParagraph where
  title : String := ""
  summary : String := ""
  content : String := ""
deriving DecidableEq, Repr

/-- External collaborators of one `generateMultiLayerDigest` run.
`oracle k` is the settled outcome of the `k`-th `callOpenAI` invocation
(src/digest.js lines 100-121; the internal `retryOnError` is already folded
into that outcome — `.error` means the call rejected after its retries,
`.ok s` the trimmed reply text, possibly empty).  `extractJson` and
`parseParagraphJson` model the JSON-recovery collaborators (src/digest.js
lines 128-159 and the `/\[[\s\S]*\]/` match at lines 259-263);
`splitSentences` models `content.split(/(?<=[.!?])\s+/)`.  `net` is the
settled article fetch. -/
structure GenEnv where
  oracle : Nat → Except Unit String
  extractJson : String → Option CustomSummary
  parseParagraphJson : String → Option (List RawParagraph)
  splitSentences : String → List String
  net : Except String ExtractedContent

/-- The custom-prompt attempt loop of `generateWithCustomPrompt`
(src/digest.js lines 177-219): each attempt calls `callOpenAI`; a rejected
call or an unparsable reply is caught/retried until the attempts run out.
Returns the parsed summary (if any) and the next OpenAI call index. -/
def genCustomLoop (env : GenEnv) (k : Nat) : Nat → Option CustomSummary × Nat
  | 0 => (none, k)
  | attempts + 1 =>
    match env.oracle k with
    | .error _ => genCustomLoop env (k + 1) attempts
    | .ok response =>
      match env.extractJson response with
      | some r => (some r, k + 1)
      | none => genCustomLoop env (k + 1) attempts

/-- `generateWithCustomPrompt` from src/digest.js lines 167-222: `null`
without any call when no custom prompt is loaded, else up to
`config.maxRetries || 3` attempts. -/
def generateWithCustomPrompt (cfg : DigestConfig) (env : GenEnv) (k : Nat) :
    Option CustomSummary × Nat :=
  match cfg.customPrompt with
  | none => (none, k)
  | some _ => genCustomLoop env k (if cfg.maxRetries = 0 then 3 else cfg.maxRetries)

/-- Validation/formatting of raw paragraphs (src/digest.js lines 277-284):
keep objects with a truthy `summary` or `content`, cap at 10, re-index. -/
def validateParagraphs (raw : List RawParagraph) : List ParagraphDigest :=
  ((raw.filter fun p => p.summary ≠ "" ∨ p.content ≠ "").take 10).enum.map
    fun q =>
      { index := q.1,
        title := jsOrS q.2.title ("Section " ++ toString (q.1 + 1)),
        summary := jsOrS q.2.summary (jsOrS q.2.content "") }

/-- The plain-text fallback when the paragraph reply is not valid JSON
(src/digest.js lines 265-274): split the reply on newlines, keep lines
longer than 20 characters, tag them `Point n`. -/
def fallbackLineParagraphs (response : String) : List RawParagraph :=
  (((response.split fun c => c = '\n').filter fun line => 20 < line.trim.length).enum.map
    fun q => { title := "Point " ++ toString (q.1 + 1), summary := q.2.trim, content := "" })

/-- Sentence grouping of `generateParagraphDigestsManual` (src/digest.js
lines 309-320): groups of 4 sentences over at most the first 40, kept when
the joined group exceeds 100 characters, capped at 8 groups downstream. -/
def groupSentences (sentences : List String) : List String :=
  (List.range 10).filterMap fun g =>
    let i := g * 4
    if i < min sentences.length 40 then
      let group := (String.intercalate " " ((sentences.drop i).take 4)).trim
      if 100 < group.length then some group else none
    else none

/-- The per-paragraph summarization loop of `generateParagraphDigestsManual`
(src/digest.js lines 326-345): one `callOpenAI` per group; a rejected call
is caught and the group skipped; an empty reply falls back to the group's
first 200 characters. -/
def manualLoop (env : GenEnv) (k : Nat) :
    List (Nat × String) → List ParagraphDigest × Nat
  | [] => ([], k)
  | q :: rest =>
    match env.oracle k with
    | .ok s =>
      let d : ParagraphDigest :=
        { index := q.1, title := "Section " ++ toString (q.1 + 1),
          summary := jsOrS s (q.2.take 200 ++ "...") }
      let r := manualLoop env (k + 1) rest
      (d :: r.1, r.2)
    | .error _ => manualLoop env (k + 1) rest

/-- `generateParagraphDigestsManual` from src/digest.js lines 307-348. -/
def generateParagraphDigestsManual (env : GenEnv) (content : String) (k : Nat) :
    List ParagraphDigest × Nat :=
  manualLoop env k ((groupSentences (env.splitSentences content)).take 8).enum

/-- `generateParagraphDigests` from src/digest.js lines 230-299: short
content yields no paragraphs without a call; otherwise one AI call whose
reply is JSON-parsed (with plain-text fallback) and validated; a rejected
call is caught and falls back to the manual splitter. -/
def generateParagraphDigests (env : GenEnv) (content : String) (k : Nat) :
    List ParagraphDigest × Nat :=
  if content.trim.length < 200 then ([], k)
  else
    match env.oracle k with
    | .ok response =>
      let raw :=
        match env.parseParagraphJson response with
        | some ps => ps
        | none => fallbackLineParagraphs response
      (validateParagraphs raw, k + 1)
    | .error _ => generateParagraphDigestsManual env content (k + 1)

/-- `generateSectionDigest` from src/digest.js lines 357-379: empty
paragraph list yields `''` without a call; a rejected call falls back to
joining the first three paragraph summaries. -/
def generateSectionDigest (env : GenEnv) (paragraphDigests : List ParagraphDigest)
    (k : Nat) : String × Nat :=
  if paragraphDigests = [] then ("", k)
  else
    match env.oracle k with
    | .ok s => (s, k + 1)
    | .error _ =>
      (String.intercalate " " ((paragraphDigests.take 3).map fun p => p.summary), k + 1)

/-- `generateOverallDigest` from src/digest.js lines 389-407: a rejected
call falls back to the content truncated at 300 characters. -/
def generateOverallDigest (env : GenEnv) (content : String) (k : Nat) :
    String × Nat :=
  match env.oracle k with
  | .ok s => (s, k + 1)
  | .error _ => (truncateText content 300, k + 1)

/-- `generateOneLineDigest` from src/digest.js lines 416-430: a rejected
call falls back to the overall digest truncated at 100 characters. -/
def generateOneLineDigest (env : GenEnv) (overallDigest : String) (k : Nat) :
    String × Nat :=
  match env.oracle k with
  | .ok s => (s, k + 1)
  | .error _ => (truncateText overallDigest 100, k + 1)

/-- Result of one `generateMultiLayerDigest` invocation: the digest, the
digest-cache store after the run, how many times `fetchArticleContent` ran
and how many `callOpenAI` invocations were made. -/
structure PipelineResult where
  digest : Digest
  store : String → CacheSlot
  fetchCalls : Nat
  openaiCalls : Nat

/-- `generateMultiLayerDigest` from src/digest.js lines 438-520: cache
lookup; on a hit the cached digest is returned with no fetch and no OpenAI
call; on a miss the article is fetched (with the feed description as
fallback), the custom-prompt path is tried first, otherwise the multi-step
paragraph/section/overall/one-line chain runs, and the assembled digest is
written back to the cache. -/
def generateMultiLayerDigest (cfg : DigestConfig) (env : GenEnv)
    (store : String → CacheSlot) (now : Int) (item : Item) (writeOk : Bool) :
    PipelineResult :=
  let itemHash := generateItemHash item
  match readDigestCache cfg store now itemHash with
  | some cached =>
    { digest := cached, store := store, fetchCalls := 0, openaiCalls := 0 }
  | none =>
    let articleContent :=
      fetchArticleContent cfg.enableFullArticleFetch env.net (jsOrS item.description "")
    let content := jsOrS articleContent.content (jsOrS item.description "")
    let custom := generateWithCustomPrompt cfg env 0
    let layers : DigestLayers × Nat :=
      match custom.1 with
      | some r =>
        ({ paragraphs := r.paragraphSummaries.enum.map fun q =>
             { index := q.1, title := "Section " ++ toString (q.1 + 1), summary := q.2 },
           sections := "", overall := r.overallSummary,
           oneLine := r.oneLineSummary }, custom.2)
      | none =>
        let pd := generateParagraphDigests env content custom.2
        let sd := generateSectionDigest env pd.1 pd.2
        let od := generateOverallDigest env content sd.2
        let old := generateOneLineDigest env od.1 od.2
        ({ paragraphs := pd.1, sections := sd.1, overall := od.1,
           oneLine := old.1 }, old.2)
    let digest : Digest :=
      { itemHash := itemHash, title := item.title, link := item.link,
        sourceTitle := item.sourceTitle, publishedAt := item.publishedAt,
        articleContent :=
          { fetchedSuccessfully := articleContent.fetchError.isNone,
            wordCount := articleContent.wordCount,
            error := articleContent.fetchError },
        digests := layers.1 }
    { digest := digest,
      store := writeDigestCache cfg store now itemHash digest writeOk,
      fetchCalls := 1,
      openaiCalls := layers.2 }

/-! ### Cache-hit and degradation theorems for the digest pipeline -/

/-- C1 [confirmed]: a fingerprint whose digest-cache record is no older than
the configured TTL, with the cache enabled, makes `generateMultiLayerDigest`
return exactly the cached digest, with no article-content fetch and no
summarization-service call, and leaves the store untouched. -/
theorem digest_cache_hit_idempotent (cfg : DigestConfig) (env : GenEnv)
    (store : String → CacheSlot) (now t : Int) (item : Item) (d : Digest) (writeOk : Bool)
    (henabled : cfg.digestCacheEnabled = true)
    (hfile : store (generateItemHash item) = .file (some (some t)) d)
    (hage : now - t ≤ cfg.digestCacheTtlMs) :
    generateMultiLayerDigest cfg env store now item writeOk
      = { digest := d, store := store, fetchCalls := 0, openaiCalls := 0 } := by
  have hread : readDigestCache cfg store now (generateItemHash item) = some d := by
    rw [readDigestCache, henabled, hfile]
    simp [not_lt.mpr hage]
  rw [generateMultiLayerDigest, hread]

/-- Witness for C1 at a concrete cached item. -/
theorem digest_cache_hit_idempotent_witness :
    generateMultiLayerDigest
        { digestCacheEnabled := true, digestCacheTtlMs := 604800000,
          enableFullArticleFetch := true, maxRetries := 3, customPrompt := none }
        { oracle := fun _ => .error (), extractJson := fun _ => none,
          parseParagraphJson := fun _ => none, splitSentences := fun _ => [],
          net := .error "offline" }
        (fun _ => .file (some (some 1000))
          { itemHash := "t|l|", title := "t", link := "l", sourceTitle := "s",
            publishedAt := none,
            articleContent := { fetchedSuccessfully := true, wordCount := 5, error := none },
            digests := { paragraphs := [], sections := "", overall := "o", oneLine := "1" } })
        2000 { title := "t", link := "l" } true
      = { digest :=
            { itemHash := "t|l|", title := "t", link := "l", sourceTitle := "s",
              publishedAt := none,
              articleContent := { fetchedSuccessfully := true, wordCount := 5, error := none },
              digests := { paragraphs := [], sections := "", overall := "o", oneLine := "1" } },
          store := fun _ => .file (some (some 1000))
            { itemHash := "t|l|", title := "t", link := "l", sourceTitle := "s",
              publishedAt := none,
              articleContent := { fetchedSuccessfully := true, wordCount := 5, error := none },
              digests := { paragraphs := [], sections := "", overall := "o", oneLine := "1" } },
          fetchCalls := 0, openaiCalls := 0 } :=
  digest_cache_hit_idempotent _ _ _ 2000 1000 _ _ true rfl rfl (by norm_num)

/-- When every OpenAI call rejects, the custom-prompt loop never recovers a
summary. -/
theorem genCustomLoop_allError (env : GenEnv)
    (horacle : ∀ k, env.oracle k = .error ()) :
    ∀ (attempts k : Nat), genCustomLoop env k attempts = (none, k + attempts) := by
  intro attempts
  induction attempts with
  | zero => intro k; simp [genCustomLoop]
  | succ n ih =>
    intro k
    rw [genCustomLoop, horacle k, ih (k + 1)]
    ring_nf

/-- A truncation of a non-empty string is non-empty. -/
theorem truncateText_ne_empty (text : String) (n : Nat) (h : text ≠ "") :
    truncateText text n ≠ "" := by
  rw [truncateText]
  by_cases hle : text = "" ∨ text.length ≤ n
  · simpa [hle] using h
  · rw [if_neg hle]
    intro hcontra
    have hlen := congrArg String.length hcontra
    rw [String.length_append] at hlen
    have h1 : ("…" : String).length = 1 := rfl
    have h0 : ("" : String).length = 0 := rfl
    rw [h1, h0] at hlen
    omega

/-- C3 [confirmed]: when the article fetch fails (the feed description is
substituted as fallback content) and every summarization call rejects,
`generateMultiLayerDigest` still produces a digest — every failure is caught
on a fallback branch — whose `digests.overall` is the fallback description
truncated at 300 characters, a non-empty string. -/
theorem degraded_digest_nonempty_overall (cfg : DigestConfig) (env : GenEnv)
    (store : String → CacheSlot) (now : Int) (item : Item) (msg : String) (writeOk : Bool)
    (hmiss : readDigestCache cfg store now (generateItemHash item) = none)
    (hfetch : cfg.enableFullArticleFetch = true)
    (hnet : env.net = .error msg)
    (hdesc : item.description ≠ "")
    (horacle : ∀ k, env.oracle k = .error ()) :
    (generateMultiLayerDigest cfg env store now item writeOk).digest.digests.overall
        = truncateText item.description 300 ∧
    (generateMultiLayerDigest cfg env store now item writeOk).digest.digests.overall ≠ "" := by
  have hcontent :
      (fetchArticleContent cfg.enableFullArticleFetch env.net
        (jsOrS item.description "")).content = item.description := by
    rw [hfetch, hnet, fetchArticleContent]
    simp [jsOrS, hdesc]
  have hjs : jsOrS item.description (jsOrS item.description "") = item.description := by
    simp [jsOrS, hdesc]
  have hcustom : (generateWithCustomPrompt cfg env 0).1 = none := by
    rw [generateWithCustomPrompt]
    cases cfg.customPrompt with
    | none => rfl
    | some p => rw [genCustomLoop_allError env horacle]
  have hoverall :
      (generateMultiLayerDigest cfg env store now item writeOk).digest.digests.overall
        = truncateText item.description 300 := by
    rw [generateMultiLayerDigest, hmiss]
    simp only [hcontent, hjs, hcustom, generateOverallDigest, horacle]
  exact ⟨hoverall, hoverall ▸ truncateText_ne_empty item.description 300 hdesc⟩

/-- Witness for C3 at a concrete item whose fetch fails and whose
summarization calls all reject. -/
theorem degraded_digest_nonempty_overall_witness :
    (generateMultiLayerDigest
        { digestCacheEnabled := true, digestCacheTtlMs := 604800000,
          enableFullArticleFetch := true, maxRetries := 3, customPrompt := none }
        { oracle := fun _ => .error (), extractJson := fun _ => none,
          parseParagraphJson := fun _ => none, splitSentences := fun _ => [],
          net := .error "HTTP 404: Not Found" }
        (fun _ => .absent) 2000
        { title := "t", link := "l", description := "a short feed description" }
        true).digest.digests.overall
      = truncateText "a short feed description" 300 ∧
    (generateMultiLayerDigest
        { digestCacheEnabled := true, digestCacheTtlMs := 604800000,
          enableFullArticleFetch := true, maxRetries := 3, customPrompt := none }
        { oracle := fun _ => .error (), extractJson := fun _ => none,
          parseParagraphJson := fun _ => none, splitSentences := fun _ => [],
          net := .error "HTTP 404: Not Found" }
        (fun _ => .absent) 2000
        { title := "t", link := "l", description := "a short feed description" }
        true).digest.digests.overall
      ≠ "" :=
  degraded_digest_nonempty_overall _ _ _ 2000 _ "HTTP 404: Not Found" true
    rfl rfl rfl (by decide) (fun _ => rfl)

/-! ### Feed cache (src/summarize-feeds.js lines 96-146, 264-336) -/

/-- The feed-cache flag from `config` (`feedCacheEnabled = feedCacheTtlMs > 0`). -/
structure FeedCacheConfig where
  feedCacheEnabled : Bool
deriving DecidableEq, Repr

/-- `writeFeedCache` from src/summarize-feeds.js lines 132-146: a no-op when
the feed cache is disabled.  Unlike `writeDigestCache`, its body contains NO
try/catch, so a failing `fs.mkdir`/`fs.writeFile` (modelled by
`writeOk = false`) rejects the promise returned by `writeFeedCache`. -/
def writeFeedCache (cfg : FeedCacheConfig) (writeOk : Bool) : Except String Unit :=
  if !cfg.feedCacheEnabled then .ok ()
  else if writeOk then .ok () else .error "EACCES: permission denied, write"

/-- `fetchFeedEntries` from src/summarize-feeds.js lines 264-336.
`cached` is the result of `readFeedCache` (`none` on miss, expiry or a
corrupt cache file — all read errors are caught there); `net` is the settled
outcome of the retried `extract` call followed by entry normalization.  The
final `await writeFeedCache(...)` is NOT wrapped in a try/catch, so its
rejection propagates to the caller of `fetchFeedEntries`. -/
def fetchFeedEntries (cfg : FeedCacheConfig) (cached : Option (List Item))
    (net : Except String (List Item)) (writeOk : Bool) :
    Except String (List Item) :=
  match cached with
  | some entries => .ok entries
  | none =>
    match net with
    | .error msg => .error msg
    | .ok entries =>
      match writeFeedCache cfg writeOk with
      | .error msg => .error msg
      | .ok _ => .ok entries

/-- C5 [corrected, amended part]: a failing cache write is non-fatal for the
DIGEST cache — `generateMultiLayerDigest` returns the same digest whether or
not the cache file write succeeds, because `writeDigestCache` catches the
failure — but for the FEED cache a failing write rejects `fetchFeedEntries`
itself (it is then caught only at the per-feed boundary in `main`). -/
theorem cache_write_failure_policy :
    (∀ (cfg : DigestConfig) (env : GenEnv) (store : String → CacheSlot)
        (now : Int) (item : Item) (b : Bool),
        (generateMultiLayerDigest cfg env store now item b).digest
          = (generateMultiLayerDigest cfg env store now item true).digest) ∧
    (∀ (cfg : FeedCacheConfig) (entries : List Item),
        cfg.feedCacheEnabled = true →
        fetchFeedEntries cfg none (.ok entries) false
          = .error "EACCES: permission denied, write") := by
  constructor
  · intro cfg env store now item b
    cases h : readDigestCache cfg store now (generateItemHash item) with
    | some cached => simp [generateMultiLayerDigest, h]
    | none => simp [generateMultiLayerDigest, h, generateWithCustomPrompt]
  · intro cfg entries henabled
    simp [fetchFeedEntries, writeFeedCache, henabled]

/-- Witness for C5's amended theorem at concrete inputs for both cache
namespaces. -/
theorem cache_write_failure_policy_witness :
    (generateMultiLayerDigest
        { digestCacheEnabled := true, digestCacheTtlMs := 604800000,
          enableFullArticleFetch := true, maxRetries := 3, customPrompt := none }
        { oracle := fun _ => .error (), extractJson := fun _ => none,
          parseParagraphJson := fun _ => none, splitSentences := fun _ => [],
          net := .error "offline" }
        (fun _ => .absent) 2000 { title := "t" } false).digest
      = (generateMultiLayerDigest
          { digestCacheEnabled := true, digestCacheTtlMs := 604800000,
            enableFullArticleFetch := true, maxRetries := 3, customPrompt := none }
          { oracle := fun _ => .error (), extractJson := fun _ => none,
            parseParagraphJson := fun _ => none, splitSentences := fun _ => [],
            net := .error "offline" }
          (fun _ => .absent) 2000 { title := "t" } true).digest ∧
    fetchFeedEntries { feedCacheEnabled := true } none (.ok [{ title := "a" }]) false
      = .error "EACCES: permission denied, write" :=
  ⟨cache_write_failure_policy.1 _
      { oracle := fun _ => .error (), extractJson := fun _ => none,
        parseParagraphJson := fun _ => none, splitSentences := fun _ => [],
        net := .error "offline" }
      (fun _ => .absent) 2000 { title := "t" } false,
   cache_write_failure_policy.2 { feedCacheEnabled := true } [{ title := "a" }] rfl⟩

/-- C5 [counterexample to the claim as stated]: on a feed-cache miss with a
successful fetch but a failing cache-file write, `fetchFeedEntries` rejects
instead of returning the freshly fetched entries. -/
theorem feedCache_write_failure_counterexample :
    fetchFeedEntries { feedCacheEnabled := true } none (.ok [{ title := "a" }]) false
      = .error "EACCES: permission denied, write" ∧
    fetchFeedEntries { feedCacheEnabled := true } none (.ok [{ title := "a" }]) false
      ≠ .ok [{ title := "a" }] := by
  constructor
  · rfl
  · intro h
    simp [fetchFeedEntries, writeFeedCache] at h

/-! ### Run-report item counters (src/reporting.js) -/

/-- One item outcome status passed to `recordItemResult`. -/
inductive ItemStatus where
  | success
  | failed
  | skipped
  | cached
deriving DecidableEq, Repr

/-- The `items` counter block of the report collector. -/
structure ItemCounters where
  total : Nat
  processed : Nat
  successful : Nat
  failed : Nat
  skipped : Nat
  cached : Nat
deriving DecidableEq, Repr

/-- The `items` block of `createReportCollector` (src/reporting.js lines
29-37): all counters start at zero. -/
def createItemCounters : ItemCounters :=
  { total := 0, processed := 0, successful := 0, failed := 0, skipped := 0, cached := 0 }

/-- `recordItemResult` (src/reporting.js lines 78-110), restricted to the
counter updates: `total` always increments; `success` bumps
`successful`/`processed`; `failed` bumps `failed`; `skipped` bumps
`skipped`; `cached` bumps `cached`/`processed`/`successful`. -/
def recordItemResult (c : ItemCounters) (status : ItemStatus) : ItemCounters :=
  let c := { c with total := c.total + 1 }
  match status with
  | .success => { c with successful := c.successful + 1, processed := c.processed + 1 }
  | .failed => { c with failed := c.failed + 1 }
  | .skipped => { c with skipped := c.skipped + 1 }
  | .cached =>
    { c with cached := c.cached + 1, processed := c.processed + 1,
             successful := c.successful + 1 }

/-- The counters after a sequence of `recordItemResult` calls on a fresh
collector. -/
def recordItemResults (statuses : List ItemStatus) : ItemCounters :=
  statuses.foldl recordItemResult createItemCounters

/-- One `recordItemResult` step preserves the counter invariants. -/
theorem recordItemResult_invariant (c : ItemCounters)
    (h : c.total = c.successful + c.failed + c.skipped ∧
         c.processed = c.successful ∧ c.cached ≤ c.successful)
    (status : ItemStatus) :
    (recordItemResult c status).total
        = (recordItemResult c status).successful + (recordItemResult c status).failed
          + (recordItemResult c status).skipped ∧
    (recordItemResult c status).processed = (recordItemResult c status).successful ∧
    (recordItemResult c status).cached ≤ (recordItemResult c status).successful := by
  obtain ⟨h1, h2, h3⟩ := h
  cases status <;> simp [recordItemResult] <;> omega

/-- C10 [confirmed]: after every sequence of `recordItemResult` calls on a
fresh report collector, the item counters satisfy
`total = successful + failed + skipped`, `processed = successful`, and
`cached ≤ successful` (this covers every intermediate point of a longer
sequence, since each of its prefixes is itself such a sequence). -/
theorem itemCounters_invariant (statuses : List ItemStatus) :
    (recordItemResults statuses).total
        = (recordItemResults statuses).successful + (recordItemResults statuses).failed
          + (recordItemResults statuses).skipped ∧
    (recordItemResults statuses).processed = (recordItemResults statuses).successful ∧
    (recordItemResults statuses).cached ≤ (recordItemResults statuses).successful := by
  have hgen :
      ∀ (l : List ItemStatus) (c : ItemCounters),
        (c.total = c.successful + c.failed + c.skipped ∧
         c.processed = c.successful ∧ c.cached ≤ c.successful) →
        ((l.foldl recordItemResult c).total
            = (l.foldl recordItemResult c).successful + (l.foldl recordItemResult c).failed
              + (l.foldl recordItemResult c).skipped ∧
         (l.foldl recordItemResult c).processed = (l.foldl recordItemResult c).successful ∧
         (l.foldl recordItemResult c).cached ≤ (l.foldl recordItemResult c).successful) := by
    intro l
    induction l with
    | nil => intro c hc; simpa using hc
    | cons s rest ih =>
      intro c hc
      simpa [List.foldl] using ih (recordItemResult c s) (recordItemResult_invariant c hc s)
  exact hgen statuses createItemCounters (by simp [createItemCounters])

/-! ### Published Atom entries, retention and daily-digest merge
(src/summarize-feeds.js lines 464-604) -/

/-- A previously published Atom `<entry>` as read back by
`readExistingFeedEntries`, restricted to the fields the retention filter and
the merge inspect.  `id` is `none` when the element is absent.  `published`
and `updated` model the raw field and its `new Date(...)` parse in one step:
outer `none` = field absent or falsy, `some none` = present but parsing to
an invalid date (`NaN`), `some (some t)` = parsing to timestamp `t` in
milliseconds.  `content` stands for the rest of the entry's payload. -/
structure AtomEntry where
  id : Option String := none
  published : Option (Option Int) := none
  updated : Option (Option Int) := none
  content : String := ""
deriving DecidableEq, Repr

/-- The sort key of `buildDailyDigestFeed`'s comparator,
`new Date(a.published || a.updated || 0)`; `none` models `NaN` (the
comparator then returns `NaN`, which `Array.sort` treats as `0`). -/
def entrySortKey (e : AtomEntry) : Option Int :=
  (e.published <|> e.updated).getD (some 0)

/-- `true` when the comparator `dateB - dateA` lets `a` stay before `b`. -/
def entryAfter (a b : AtomEntry) : Bool :=
  match entrySortKey a, entrySortKey b with
  | some x, some y => y ≤ x
  | _, _ => true

/-- Stable insertion step for the date-descending sort. -/
def insertByDate (e : AtomEntry) : List AtomEntry → List AtomEntry
  | [] => [e]
  | x :: xs => if entryAfter e x then e :: x :: xs else x :: insertByDate e xs

/-- The `allEntries.sort((a, b) => dateB - dateA)` of `buildDailyDigestFeed`
(lines 571-575), realized as a stable sort consistent with the comparator
(JS leaves the algorithm unspecified; only stability and comparator
consistency are observable, and the membership and count properties proved
here hold for every permutation). -/
def sortByDateDesc (l : List AtomEntry) : List AtomEntry :=
  l.foldr insertByDate []

/-- The current run's aggregate entry (`todayEntry`, lines 545-562):
`id = daily-digest-<dateId>`, published/updated stamped with the current
instant, carrying the digest HTML as content. -/
def mkTodayEntry (dateId : String) (nowMs : Int) (content : String) : AtomEntry :=
  { id := some ("daily-digest-" ++ dateId), published := some (some nowMs),
    updated := some (some nowMs), content := content }

/-- The entry list assembled by `buildDailyDigestFeed` (src/summarize-feeds.js
lines 532-604): build today's entry, drop every previous entry whose id
equals today's id, put today's entry first, then sort by date descending. -/
def buildDailyDigestEntries (dateId : String) (nowMs : Int) (htmlContent : String)
    (previousEntries : List AtomEntry) : List AtomEntry :=
  let todayEntry := mkTodayEntry dateId nowMs htmlContent
  let filteredPrevious :=
    previousEntries.filter fun e => e.id ≠ some ("daily-digest-" ++ dateId)
  sortByDateDesc (todayEntry :: filteredPrevious)

/-- Insertion keeps the list a permutation of consing. -/
theorem insertByDate_perm (e : AtomEntry) (l : List AtomEntry) :
    List.Perm (insertByDate e l) (e :: l) := by
  induction l with
  | nil => rw [insertByDate]
  | cons x xs ih =>
    rw [insertByDate]
    by_cases h : entryAfter e x
    · rw [if_pos h]
    · rw [if_neg h]
      exact (ih.cons x).trans (List.Perm.swap e x xs)

/-- The date sort permutes its input. -/
theorem sortByDateDesc_perm (l : List AtomEntry) : List.Perm (sortByDateDesc l) l := by
  induction l with
  | nil => simp [sortByDateDesc]
  | cons x xs ih =>
    exact (insertByDate_perm x (sortByDateDesc xs)).trans (ih.cons x)

/-- C8 [confirmed]: in aggregate (daily digest) mode, the merged entry list
contains exactly one entry carrying today's daily-digest identity, and that
entry is the current run's entry — previous entries with the same identity
are all removed, so a same-day re-run never duplicates the day's entry. -/
theorem dailyDigest_unique_today (dateId : String) (nowMs : Int) (html : String)
    (prev : List AtomEntry) :
    (buildDailyDigestEntries dateId nowMs html prev).countP
        (fun e => e.id == some ("daily-digest-" ++ dateId)) = 1 ∧
    ∀ e ∈ buildDailyDigestEntries dateId nowMs html prev,
      e.id = some ("daily-digest-" ++ dateId) → e = mkTodayEntry dateId nowMs html := by
  have hperm :
      List.Perm (buildDailyDigestEntries dateId nowMs html prev)
        (mkTodayEntry dateId nowMs html ::
          prev.filter (fun e => e.id ≠ some ("daily-digest-" ++ dateId))) :=
    sortByDateDesc_perm _
  have hfiltered : ∀ e ∈ prev.filter (fun e => e.id ≠ some ("daily-digest-" ++ dateId)),
      ¬ e.id = some ("daily-digest-" ++ dateId) := by
    intro e he
    have := List.of_mem_filter he
    simpa using this
  constructor
  · rw [hperm.countP_eq]
    rw [List.countP_cons]
    have h1 : (mkTodayEntry dateId nowMs html).id == some ("daily-digest-" ++ dateId) := by
      simp [mkTodayEntry]
    have h0 : (prev.filter (fun e => e.id ≠ some ("daily-digest-" ++ dateId))).countP
        (fun e => e.id == some ("daily-digest-" ++ dateId)) = 0 := by
      rw [List.countP_eq_zero]
      intro e he
      simpa using hfiltered e he
    rw [h0, h1]
    simp
  · intro e he hid
    rcases List.mem_cons.mp (hperm.mem_iff.mp he) with h | h
    · exact h
    · exact absurd hid (hfiltered e (by simpa using h))

/-- Witness for C8 at a concrete previous-entry list containing a stale
same-day entry. -/
theorem dailyDigest_unique_today_witness :
    (buildDailyDigestEntries "2026-01-09" 1767950000000 "<p>today</p>"
        [{ id := some "daily-digest-2026-01-09", published := some (some 1767920000000),
           content := "stale same-day entry" },
         { id := some "daily-digest-2026-01-08", published := some (some 1767860000000),
           content := "yesterday" }]).countP
        (fun e => e.id == some ("daily-digest-" ++ "2026-01-09")) = 1 ∧
    ∀ e ∈ buildDailyDigestEntries "2026-01-09" 1767950000000 "<p>today</p>"
        [{ id := some "daily-digest-2026-01-09", published := some (some 1767920000000),
           content := "stale same-day entry" },
         { id := some "daily-digest-2026-01-08", published := some (some 1767860000000),
           content := "yesterday" }],
      e.id = some ("daily-digest-" ++ "2026-01-09") →
        e = mkTodayEntry "2026-01-09" 1767950000000 "<p>today</p>" :=
  dailyDigest_unique_today "2026-01-09" 1767950000000 "<p>today</p>" _

/-! ### Retention filter (src/summarize-feeds.js lines 496-524) -/

/-- Milliseconds per UTC day (JS `Date` has no leap seconds). -/
def msPerDay : Int := 86400000

/-- `setUTCHours(0,0,0,0)`: floor a millisecond timestamp to the start of
its UTC day (`/` on `Int` is Euclidean division, which is floor division
for the positive divisor). -/
def startOfUtcDayMs (t : Int) : Int :=
  t / msPerDay * msPerDay

/-- Gregorian leap year. -/
def isLeapYear (y : Int) : Bool :=
  (y % 4 = 0 && y % 100 ≠ 0) || y % 400 = 0

/-- Days in a month of the proleptic Gregorian calendar (0 for an invalid
month number). -/
def daysInMonth (y : Int) : Nat → Nat
  | 1 => 31
  | 2 => if isLeapYear y then 29 else 28
  | 3 => 31
  | 4 => 30
  | 5 => 31
  | 6 => 30
  | 7 => 31
  | 8 => 31
  | 9 => 30
  | 10 => 31
  | 11 => 30
  | 12 => 31
  | _ => 0

/-- Days from 1970-01-01 to the civil date `y-m-d` (standard
days-from-civil computation; all divisions are floor divisions). -/
def daysFromCivil (y : Int) (m d : Nat) : Int :=
  let yAdj : Int := if m ≤ 2 then y - 1 else y
  let era : Int := yAdj / 400
  let yoe : Int := yAdj - era * 400
  let mp : Int := (m : Int) + (if 2 < m then -3 else 9)
  let doy : Int := (153 * mp + 2) / 5 + (d : Int) - 1
  let doe : Int := yoe * 365 + yoe / 4 - yoe / 100 + doy
  era * 146097 + doe - 719468

/-- `new Date("YYYY-MM-DDT00:00:00Z")` for the regex-captured digits:
a valid calendar date gives its UTC-midnight timestamp, anything else
(month 0 or 13-99, day out of range) gives an invalid date (`NaN`),
modelled as `none`. -/
def utcMidnightMs (y m d : Nat) : Option Int :=
  if 1 ≤ m ∧ m ≤ 12 ∧ 1 ≤ d ∧ d ≤ daysInMonth (y : Int) m then
    some (daysFromCivil (y : Int) m d * msPerDay)
  else none

/-- Decimal digit value of a character, `none` for a non-digit. -/
def digitVal (c : Char) : Option Nat :=
  if c.isDigit then some (c.toNat - 48) else none

/-- Parse a fixed run of decimal digits; `none` if any character is not a
digit. -/
def parseDigits (cs : List Char) : Option Nat :=
  cs.foldl
    (fun acc c =>
      match acc, digitVal c with
      | some n, some d => some (n * 10 + d)
      | _, _ => none)
    (some 0)

/-- Try the regex `/daily-digest-(\d{4}-\d{2}-\d{2})/` at the head of the
character list: on a match, return the captured date parsed as
`new Date(capture + 'T00:00:00Z')` (`some none` when that date is invalid). -/
def matchDailyDigestAt (l : List Char) : Option (Option Int) :=
  if "daily-digest-".toList.isPrefixOf l then
    match l.drop 13 with
    | y1 :: y2 :: y3 :: y4 :: c1 :: m1 :: m2 :: c2 :: d1 :: d2 :: _ =>
      if c1 = '-' ∧ c2 = '-' then
        match parseDigits [y1, y2, y3, y4], parseDigits [m1, m2], parseDigits [d1, d2] with
        | some y, some m, some d => some (utcMidnightMs y m d)
        | _, _, _ => none
      else none
    | _ => none
  else none

/-- Scan for the first position where the daily-digest date pattern
matches (regex search semantics). -/
def scanDailyDigest : List Char → Option (Option Int)
  | [] => none
  | c :: rest =>
    match matchDailyDigestAt (c :: rest) with
    | some r => some r
    | none => scanDailyDigest rest

/-- `id.match(/daily-digest-(\d{4}-\d{2}-\d{2})/)` followed by
`new Date(dateMatch[1] + 'T00:00:00Z')`: `none` when the pattern does not
occur, `some none` when it matches but the captured date is invalid. -/
def parseDigestIdDate (id : String) : Option (Option Int) :=
  scanDailyDigest id.toList

/-- JS date comparison `entryDate >= cutoffDate`: false when the entry date
is invalid (`NaN` compares false). -/
def jsDateGe (d : Option Int) (cutoff : Int) : Bool :=
  match d with
  | some t => cutoff ≤ t
  | none => false

/-- `filterEntriesByRetention` from src/summarize-feeds.js lines 496-524:
empty input short-circuits; the cutoff subtracts `retentionDays` days from
now (`setUTCDate(getUTCDate() - retentionDays)`, which normalizes on the
millisecond timeline) and then floors to the start of that UTC day
(`setUTCHours(0,0,0,0)`); each entry keeps the first available date among
the daily-digest id capture, `published` and `updated` and is retained when
that date is on or after the cutoff; an entry with none of the three is
kept. -/
def filterEntriesByRetention (now : Int) (entries : List AtomEntry)
    (retentionDays : Int) : List AtomEntry :=
  if entries.isEmpty then []
  else
    let cutoffDate := startOfUtcDayMs (now - retentionDays * msPerDay)
    entries.filter fun entry =>
      match parseDigestIdDate (entry.id.getD "") with
      | some d => jsDateGe d cutoffDate
      | none =>
        match entry.published with
        | some d => jsDateGe d cutoffDate
        | none =>
          match entry.updated with
          | some d => jsDateGe d cutoffDate
          | none => true

/-- The retention cutoff in the spec's formulation: the start of the
current UTC day minus the retention horizon. -/
def specRetentionCutoff (now retentionDays : Int) : Int :=
  startOfUtcDayMs now - retentionDays * msPerDay

/-- The derived date of an entry in the amended spec formulation: the
daily-digest id capture, else the published timestamp, else the updated
timestamp (`some none` = a candidate exists but parses to an invalid
date). -/
def specDerivedDate (e : AtomEntry) : Option (Option Int) :=
  parseDigestIdDate (e.id.getD "") <|> e.published <|> e.updated

/-- The amended spec's retention predicate: keep exactly the entries whose
derived date is on or after the cutoff, drop entries whose derived date is
invalid, keep entries with no derivable date. -/
def specRetentionKeep (now retentionDays : Int) (e : AtomEntry) : Bool :=
  match specDerivedDate e with
  | some (some d) => specRetentionCutoff now retentionDays ≤ d
  | some none => false
  | none => true

/-- Subtracting whole days commutes with flooring to the day start. -/
theorem startOfUtcDayMs_sub_days (t k : Int) :
    startOfUtcDayMs (t - k * msPerDay) = startOfUtcDayMs t - k * msPerDay := by
  unfold startOfUtcDayMs
  have h : msPerDay ≠ 0 := by norm_num [msPerDay]
  rw [sub_eq_add_neg, ← neg_mul, Int.add_mul_ediv_right _ _ h]
  ring

/-- C4 [corrected, amended]: `filterEntriesByRetention` retains exactly the
entries whose derived date — obtained from the `daily-digest-YYYY-MM-DD` id
capture, ELSE the `published` timestamp, ELSE the `updated` timestamp — is
on or after `cutoff = startOfUTCDay(now) − retentionDays` days; an entry
whose candidate date exists but is invalid (`NaN`) is dropped; an entry
with none of the three date sources is kept. -/
theorem filterEntriesByRetention_eq_spec (now r : Int) (entries : List AtomEntry) :
    filterEntriesByRetention now entries r
      = entries.filter (specRetentionKeep now r) := by
  rw [filterEntriesByRetention]
  by_cases hnil : entries.isEmpty
  · rw [if_pos hnil, List.isEmpty_iff.mp hnil, List.filter_nil]
  · rw [if_neg hnil]
    apply List.filter_congr
    intro e _
    have hcut : startOfUtcDayMs (now - r * msPerDay) = specRetentionCutoff now r :=
      startOfUtcDayMs_sub_days now r
    rw [hcut]
    rw [specRetentionKeep, specDerivedDate]
    cases hid : parseDigestIdDate (e.id.getD "") with
    | some d => cases d <;> simp [jsDateGe]
    | none =>
      cases hpub : e.published with
      | some d => cases d <;> simp [jsDateGe]
      | none =>
        cases hupd : e.updated with
        | some d => cases d <;> simp [jsDateGe]
        | none => simp [jsDateGe]

/-- C4 [counterexample to the claim as stated]: this entry has no id and no
published timestamp, so its date is not determinable in the claim's sense
(id capture, else published) and the claim says it is kept; but it carries
an `updated` timestamp of 1970-01-01, which the code uses as a further
fallback, so at `now = 2026-01-16` with a 10-day horizon the entry is
dropped. -/
theorem retention_updatedOnly_counterexample :
    filterEntriesByRetention 1768521600000
        [{ id := none, published := none, updated := some (some 0),
           content := "old entry" }] 10
      = [] ∧
    ({ id := none, published := none, updated := some (some 0),
       content := "old entry" } : AtomEntry).id = none ∧
    ({ id := none, published := none, updated := some (some 0),
       content := "old entry" } : AtomEntry).published = none := by
  refine ⟨by decide, rfl, rfl⟩

/-! ### Scheduling of the main run loop (src/summarize-feeds.js lines 698-920)

`main` processes feeds with a sequential `for...of` loop that awaits each
feed's processing — including the sequential inner loop over its items — to
completion before starting the next (lines 734-761 and 773-808).  The
configured `maxConcurrentFeeds` / `maxConcurrentItems` limits are read only
into the run report (src/reporting.js lines 17-18); `pLimit` is imported but
never applied in this `main`.  The model makes the start/end of each
source-processing and item-processing task explicit as a trace of events; a
task is in flight between its start and end event. -/

/-- Trace events of one run: start/end of a source-processing task (feed
`i`) and of an item-processing task (item `j` of feed `i`). -/
inductive SchedEvent where
  | feedStart (i : Nat)
  | feedEnd (i : Nat)
  | itemStart (i j : Nat)
  | itemEnd (i j : Nat)
deriving DecidableEq, Repr

/-- Is this event the start of a source-processing task? -/
def isFeedStartEv : SchedEvent → Bool
  | .feedStart _ => true
  | _ => false

/-- Is this event the end of a source-processing task? -/
def isFeedEndEv : SchedEvent → Bool
  | .feedEnd _ => true
  | _ => false

/-- Is this event the start of an item-processing task of feed `i`? -/
def isItemStartEv (i : Nat) : SchedEvent → Bool
  | .itemStart i' _ => i' == i
  | _ => false

/-- Is this event the end of an item-processing task of feed `i`? -/
def isItemEndEv (i : Nat) : SchedEvent → Bool
  | .itemEnd i' _ => i' == i
  | _ => false

/-- Number of source-processing tasks in flight after the trace prefix
`tr`: started minus ended. -/
def feedsInFlight (tr : List SchedEvent) : Int :=
  (tr.countP isFeedStartEv : Int) - (tr.countP isFeedEndEv : Int)

/-- Number of item-processing tasks of feed `i` in flight after the trace
prefix `tr`. -/
def itemsInFlight (i : Nat) (tr : List SchedEvent) : Int :=
  (tr.countP (isItemStartEv i) : Int) - (tr.countP (isItemEndEv i) : Int)

/-- One item is processed to completion (`await generateMultiLayerDigest`
and its bookkeeping) before the next starts. -/
def itemPair (i j : Nat) : List SchedEvent :=
  [.itemStart i j, .itemEnd i j]

/-- The inner `for (let i = 0; ...)` item loop of one feed: items run
strictly one after the other. -/
def itemEvents (i n : Nat) : List SchedEvent :=
  ((List.range n).map (itemPair i)).flatten

/-- One feed's processing task: it encloses its item tasks. -/
def feedEvents (i n : Nat) : List SchedEvent :=
  .feedStart i :: (itemEvents i n ++ [.feedEnd i])

/-- The trace of `main`'s processing loop for feeds with the given item
counts.  The configured concurrency limits `maxConcurrentFeeds` and
`maxConcurrentItems` are accepted (they exist in `config`) but do not
influence the schedule: the loops are sequential and never consult them. -/
def mainSchedule (maxConcurrentFeeds maxConcurrentItems : Nat)
    (itemCounts : List Nat) : List SchedEvent :=
  ((itemCounts.enum).map fun q => feedEvents q.1 q.2).flatten

/-- A prefix of `xs ++ ys` is a prefix of `xs`, or all of `xs` followed by
a prefix of `ys`. -/
theorem prefix_append_cases {α : Type} (xs ys p : List α) (h : p <+: xs ++ ys) :
    p <+: xs ∨ ∃ q, p = xs ++ q ∧ q <+: ys := by
  induction xs generalizing p with
  | nil => exact Or.inr ⟨p, rfl, h⟩
  | cons x xs ih =>
    cases p with
    | nil => exact Or.inl List.nil_prefix
    | cons a p' =>
      rw [List.cons_append, List.cons_prefix_cons] at h
      obtain ⟨rfl, h2⟩ := h
      rcases ih p' h2 with h' | ⟨q, rfl, hq⟩
      · exact Or.inl (List.cons_prefix_cons.mpr ⟨rfl, h'⟩)
      · exact Or.inr ⟨q, by simp, hq⟩

/-- A prefix of a one-element list is empty or that list. -/
theorem prefix_singleton_cases {α : Type} (x : α) (p : List α) (h : p <+: [x]) :
    p = [] ∨ p = [x] := by
  cases p with
  | nil => exact Or.inl rfl
  | cons a p' =>
    rw [List.cons_prefix_cons] at h
    obtain ⟨rfl, h2⟩ := h
    right
    rw [List.prefix_nil.mp h2]

/-- `feedsInFlight` is additive over concatenation. -/
theorem feedsInFlight_append (xs ys : List SchedEvent) :
    feedsInFlight (xs ++ ys) = feedsInFlight xs + feedsInFlight ys := by
  simp only [feedsInFlight, List.countP_append]
  push_cast
  ring

/-- `itemsInFlight i` is additive over concatenation. -/
theorem itemsInFlight_append (i : Nat) (xs ys : List SchedEvent) :
    itemsInFlight i (xs ++ ys) = itemsInFlight i xs + itemsInFlight i ys := by
  simp only [itemsInFlight, List.countP_append]
  push_cast
  ring

/-- Bound for prefixes of a flattened block list, given that every block is
balanced (`f b = 0`) and respects the bound on its own prefixes. -/
theorem flatten_prefix_bound (f : List SchedEvent → Int)
    (hadd : ∀ xs ys, f (xs ++ ys) = f xs + f ys)
    (blocks : List (List SchedEvent))
    (hb : ∀ b ∈ blocks, f b = 0 ∧ ∀ p, p <+: b → f p ≤ 1) :
    ∀ p, p <+: blocks.flatten → f p ≤ 1 := by
  have hnil : f [] = 0 := by
    have := hadd [] []
    simp at this
    omega
  induction blocks with
  | nil =>
    intro p hp
    simp only [List.flatten_nil] at hp
    rw [List.prefix_nil.mp hp, hnil]
    omega
  | cons b bs ih =>
    intro p hp
    rw [List.flatten_cons] at hp
    rcases prefix_append_cases _ _ _ hp with h | ⟨q, rfl, hq⟩
    · exact (hb b (by simp)).2 p h
    · rw [hadd]
      have h1 := (hb b (by simp)).1
      have h2 := ih (fun c hc => hb c (by simp [hc])) q hq
      omega

/-- A flattening of balanced blocks is balanced. -/
theorem flatten_balanced (f : List SchedEvent → Int)
    (hadd : ∀ xs ys, f (xs ++ ys) = f xs + f ys)
    (blocks : List (List SchedEvent))
    (hb : ∀ b ∈ blocks, f b = 0) :
    f blocks.flatten = 0 := by
  have hnil : f [] = 0 := by
    have := hadd [] []
    simp at this
    omega
  induction blocks with
  | nil => simpa using hnil
  | cons b bs ih =>
    rw [List.flatten_cons, hadd, hb b (by simp), ih fun c hc => hb c (by simp [hc])]
    simp

/-- Item events carry no feed start/end, so any prefix of the item part of
a feed block holds zero feed tasks in flight. -/
theorem feedsInFlight_itemEvents_zero (i n : Nat) (p : List SchedEvent)
    (hp : p <+: itemEvents i n) : feedsInFlight p = 0 := by
  have hmem : ∀ e ∈ p, isFeedStartEv e = false ∧ isFeedEndEv e = false := by
    intro e he
    have he2 : e ∈ itemEvents i n := hp.subset he
    simp only [itemEvents, List.mem_flatten, List.mem_map] at he2
    obtain ⟨b, ⟨j, _, rfl⟩, hb⟩ := he2
    simp only [itemPair, List.mem_cons, List.not_mem_nil, or_false] at hb
    rcases hb with rfl | rfl
    · exact ⟨rfl, rfl⟩
    · exact ⟨rfl, rfl⟩
  have h1 : p.countP isFeedStartEv = 0 :=
    List.countP_eq_zero.mpr fun e he => by simp [(hmem e he).1]
  have h2 : p.countP isFeedEndEv = 0 :=
    List.countP_eq_zero.mpr fun e he => by simp [(hmem e he).2]
  simp [feedsInFlight, h1, h2]

/-- One feed block is balanced for `feedsInFlight` and every prefix of it
holds at most one feed task in flight. -/
theorem feedEvents_feed_block (i n : Nat) :
    feedsInFlight (feedEvents i n) = 0 ∧
    ∀ p, p <+: feedEvents i n → feedsInFlight p ≤ 1 := by
  have hfull : feedsInFlight (feedEvents i n) = 0 := by
    have h0 : feedEvents i n = [SchedEvent.feedStart i] ++ (itemEvents i n ++ [SchedEvent.feedEnd i]) := rfl
    rw [h0, feedsInFlight_append, feedsInFlight_append]
    rw [feedsInFlight_itemEvents_zero i n _ (List.prefix_refl _)]
    simp [feedsInFlight, isFeedStartEv, isFeedEndEv]
  refine ⟨hfull, ?_⟩
  intro p hp
  cases p with
  | nil => simp [feedsInFlight]
  | cons a p' =>
    rw [show feedEvents i n = SchedEvent.feedStart i :: (itemEvents i n ++ [SchedEvent.feedEnd i]) from rfl,
      List.cons_prefix_cons] at hp
    obtain ⟨rfl, h2⟩ := hp
    have hcons : feedsInFlight (SchedEvent.feedStart i :: p')
        = 1 + feedsInFlight p' := by
      rw [show SchedEvent.feedStart i :: p' = [SchedEvent.feedStart i] ++ p' from rfl,
        feedsInFlight_append]
      simp [feedsInFlight, isFeedStartEv, isFeedEndEv]
    rw [hcons]
    rcases prefix_append_cases _ _ _ h2 with h | ⟨q, rfl, hq⟩
    · rw [feedsInFlight_itemEvents_zero i n _ h]
      omega
    · rw [feedsInFlight_append,
        feedsInFlight_itemEvents_zero i n _ (List.prefix_refl _)]
      rcases prefix_singleton_cases _ _ hq with rfl | rfl
      · simp [feedsInFlight]
      · simp [feedsInFlight, isFeedStartEv, isFeedEndEv]
  
/-- One item pair is balanced for `itemsInFlight i` and its prefixes hold
at most one item task in flight. -/
theorem itemPair_item_block (i i' j : Nat) :
    itemsInFlight i (itemPair i' j) = 0 ∧
    ∀ p, p <+: itemPair i' j → itemsInFlight i p ≤ 1 := by
  constructor
  · by_cases h : i' = i <;> simp [itemsInFlight, itemPair, isItemStartEv, isItemEndEv, h]
  · intro p hp
    cases p with
    | nil => simp [itemsInFlight]
    | cons a p' =>
      rw [show itemPair i' j = SchedEvent.itemStart i' j :: [SchedEvent.itemEnd i' j] from rfl,
        List.cons_prefix_cons] at hp
      obtain ⟨rfl, h2⟩ := hp
      rcases prefix_singleton_cases _ _ h2 with rfl | rfl
      all_goals by_cases h : i' = i
      all_goals simp [itemsInFlight, isItemStartEv, isItemEndEv, h]

/-- The item part of a feed block is balanced for `itemsInFlight i` and its
prefixes hold at most one item task in flight. -/
theorem itemEvents_item_block (i i' n : Nat) :
    itemsInFlight i (itemEvents i' n) = 0 ∧
    ∀ p, p <+: itemEvents i' n → itemsInFlight i p ≤ 1 := by
  have hb : ∀ b ∈ (List.range n).map (itemPair i'),
      itemsInFlight i b = 0 ∧ ∀ p, p <+: b → itemsInFlight i p ≤ 1 := by
    intro b hbmem
    simp only [List.mem_map] at hbmem
    obtain ⟨j, _, rfl⟩ := hbmem
    exact itemPair_item_block i i' j
  exact ⟨flatten_balanced _ (itemsInFlight_append i) _ (fun b hbm => (hb b hbm).1),
    flatten_prefix_bound _ (itemsInFlight_append i) _ hb⟩

/-- One feed block is balanced for `itemsInFlight i` and every prefix of it
holds at most one item task of feed `i` in flight. -/
theorem feedEvents_item_block (i i' n : Nat) :
    itemsInFlight i (feedEvents i' n) = 0 ∧
    ∀ p, p <+: feedEvents i' n → itemsInFlight i p ≤ 1 := by
  have hfs : itemsInFlight i [SchedEvent.feedStart i'] = 0 := by
    simp [itemsInFlight, isItemStartEv, isItemEndEv]
  have hfe : itemsInFlight i [SchedEvent.feedEnd i'] = 0 := by
    simp [itemsInFlight, isItemStartEv, isItemEndEv]
  constructor
  · rw [show feedEvents i' n
        = [SchedEvent.feedStart i'] ++ (itemEvents i' n ++ [SchedEvent.feedEnd i']) from rfl,
      itemsInFlight_append, itemsInFlight_append, hfs, hfe,
      (itemEvents_item_block i i' n).1]
    simp
  · intro p hp
    cases p with
    | nil => simp [itemsInFlight]
    | cons a p' =>
      rw [show feedEvents i' n
          = SchedEvent.feedStart i' :: (itemEvents i' n ++ [SchedEvent.feedEnd i']) from rfl,
        List.cons_prefix_cons] at hp
      obtain ⟨rfl, h2⟩ := hp
      have hcons : itemsInFlight i (SchedEvent.feedStart i' :: p')
          = itemsInFlight i p' := by
        rw [show SchedEvent.feedStart i' :: p' = [SchedEvent.feedStart i'] ++ p' from rfl,
          itemsInFlight_append, hfs]
        ring
      rw [hcons]
      rcases prefix_append_cases _ _ _ h2 with h | ⟨q, rfl, hq⟩
      · exact (itemEvents_item_block i i' n).2 p' h
      · rw [itemsInFlight_append, (itemEvents_item_block i i' n).1]
        rcases prefix_singleton_cases _ _ hq with rfl | rfl
        · simp [itemsInFlight]
        · rw [hfe]
          omega

/-- C9 [corrected, amended]: the processing loops of `main` are sequential,
so along every prefix of the run's trace at most ONE source-processing task
is in flight and, within each source, at most ONE item-processing task is in
flight; the configured `maxConcurrentFeeds`/`maxConcurrentItems` limits do
not influence the schedule at all (they are only copied into the run
report), as the last conjunct records.  In particular the claimed "at most
K" ceiling holds for every K ≥ 1 but fails for a configured K = 0. -/
theorem mainSchedule_sequential (maxConcurrentFeeds maxConcurrentItems : Nat)
    (itemCounts : List Nat) (p : List SchedEvent)
    (hp : p <+: mainSchedule maxConcurrentFeeds maxConcurrentItems itemCounts) :
    feedsInFlight p ≤ 1 ∧ (∀ i, itemsInFlight i p ≤ 1) ∧
    mainSchedule maxConcurrentFeeds maxConcurrentItems itemCounts
      = mainSchedule 3 5 itemCounts := by
  rw [mainSchedule] at hp
  refine ⟨?_, ?_, rfl⟩
  · refine flatten_prefix_bound _ feedsInFlight_append _ ?_ p hp
    intro b hbmem
    simp only [List.mem_map] at hbmem
    obtain ⟨q, _, rfl⟩ := hbmem
    exact feedEvents_feed_block q.1 q.2
  · intro i
    refine flatten_prefix_bound _ (itemsInFlight_append i) _ ?_ p hp
    intro b hbmem
    simp only [List.mem_map] at hbmem
    obtain ⟨q, _, rfl⟩ := hbmem
    exact feedEvents_item_block i q.1 q.2

/-- Witness for C9's amended theorem at a concrete two-feed schedule and
the prefix that stops in the middle of feed 0's first item. -/
theorem mainSchedule_sequential_witness :
    feedsInFlight [SchedEvent.feedStart 0, SchedEvent.itemStart 0 0] ≤ 1 ∧
    (∀ i, itemsInFlight i [SchedEvent.feedStart 0, SchedEvent.itemStart 0 0] ≤ 1) ∧
    mainSchedule 3 5 [1, 2] = mainSchedule 3 5 [1, 2] :=
  mainSchedule_sequential 3 5 [1, 2]
    [SchedEvent.feedStart 0, SchedEvent.itemStart 0 0]
    ⟨[SchedEvent.itemEnd 0 0, SchedEvent.feedEnd 0,
      SchedEvent.feedStart 1, SchedEvent.itemStart 1 0, SchedEvent.itemEnd 1 0,
      SchedEvent.itemStart 1 1, SchedEvent.itemEnd 1 1, SchedEvent.feedEnd 1], by decide⟩

/-- C9 [counterexample to the claim as stated]: with a configured
`maxConcurrentFeeds = 0` the schedule is unchanged (the limit is never
consulted), and right after the first feed task starts there is 1 > 0 task
in flight, violating the claimed "at most K ... and never more" ceiling. -/
theorem mainSchedule_limit_counterexample :
    [SchedEvent.feedStart 0] <+: mainSchedule 0 5 [1] ∧
    feedsInFlight [SchedEvent.feedStart 0] = 1 ∧
    ¬ feedsInFlight [SchedEvent.feedStart 0] ≤ (0 : Int) := by
  refine ⟨⟨[SchedEvent.itemStart 0 0, SchedEvent.itemEnd 0 0, SchedEvent.feedEnd 0], by decide⟩,
    by decide, by decide⟩

end AFO
